import Mathlib

/-!
Shallow embedding of `src/captcha.py`, a client for the anti-captcha web
service.  The network transport (`requests.post(...).json()`) is external to
the library; we model each service operation as a pure function from the
client state and the parsed JSON response to the pair
(request payload sent, processed result).  Python exceptions are modelled
with `Except`.
-/

namespace Captcha

/-- JSON-ish value universe for request and response fields.  `jnull` models
Python `None`. -/
inductive JVal where
  | jnull : JVal
  | jbool : Bool → JVal
  | jint : Int → JVal
  | jrat : Rat → JVal
  | jstr : String → JVal
deriving DecidableEq, Repr

/-- A Python dict with string keys, as an association list in insertion
order.  Keys are unique in every dict the code constructs or parses. -/
abbrev Dict := List (String × JVal)

/-- Python `d[k]` lookup, as an `Option`. -/
def lookupD : Dict → String → Option JVal
  | [], _ => none
  | (k, v) :: rest, key => if k = key then some v else lookupD rest key

/-- Python `k in d`. -/
def containsKey (d : Dict) (k : String) : Bool :=
  (lookupD d k).isSome

/-- Python `del d[k]` (also the identity when the key is absent, which we
use to state uniform theorems; the code only deletes present keys). -/
def eraseKey : Dict → String → Dict
  | [], _ => []
  | (k, v) :: rest, key =>
    if k = key then eraseKey rest key else (k, v) :: eraseKey rest key

/-- Python `d[k] = v`: replace in place when the key exists, else append. -/
def setKey : Dict → String → JVal → Dict
  | [], key, val => [(key, val)]
  | (k, v) :: rest, key, val =>
    if k = key then (k, val) :: rest else (k, v) :: setKey rest key val

/-- Python `d.update(entries)`. -/
def updateD (d : Dict) (entries : List (String × JVal)) : Dict :=
  entries.foldl (fun acc p => setKey acc p.1 p.2) d

/-- Python `v == s` where `s` is a string literal: for this value universe
Python string comparison agrees with structural equality (a non-string
compared to a string is `False`, never an error). -/
def pyEqStr (v : JVal) (s : String) : Bool :=
  decide (v = JVal.jstr s)

/-- Python `str(v)`, as used by `'{}'.format(v)` in the error message. -/
def pyStr : JVal → String
  | .jnull => "None"
  | .jbool true => "True"
  | .jbool false => "False"
  | .jint n => toString n
  | .jrat q => toString q
  | .jstr s => s

/-- Python `v > 0`: defined for numbers and booleans, a `TypeError`
(modelled as `none`) otherwise. -/
def jgtZero : JVal → Option Bool
  | .jint n => some (decide (0 < n))
  | .jrat q => some (decide (0 < q))
  | .jbool b => some b
  | _ => none

/-- Exceptions the library code can raise. `captchaException` is the
`CaptchaException` class of `captcha.py`; `keyError` and `typeError` are
the Python built-ins that dict access and bad comparisons raise. -/
inductive PyError where
  | captchaException : String → PyError
  | keyError : String → PyError
  | typeError : PyError
deriving DecidableEq, Repr

/-- Python `d[k]` in an exception-propagating context. -/
def getKey (d : Dict) (k : String) : Except PyError JVal :=
  match lookupD d k with
  | some v => .ok v
  | none => .error (.keyError k)

/-- Enum `Queue` of `captcha.py`.  In the source `STANDARD_ENG` and
`STANDARD_RUS` both carry wire value 1. -/
inductive Queue where
  | STANDARD_ENG
  | STANDARD_RUS
  | RECAPTCHA
  | RECAPTCHA_PROXYLESS
  | FUNCAPTCHA
  | FUNCAPTCHA_PROXYLESS
deriving DecidableEq, Repr

def Queue.value : Queue → Int
  | .STANDARD_ENG => 1
  | .STANDARD_RUS => 1
  | .RECAPTCHA => 5
  | .RECAPTCHA_PROXYLESS => 6
  | .FUNCAPTCHA => 7
  | .FUNCAPTCHA_PROXYLESS => 8

/-- Enum `Numeric` of `captcha.py`. -/
inductive Numeric where
  | NO_REQUIREMENTS
  | ONLY_NUMBERS
  | ONLY_LETTERS
deriving DecidableEq, Repr

def Numeric.value : Numeric → Int
  | .NO_REQUIREMENTS => 0
  | .ONLY_NUMBERS => 1
  | .ONLY_LETTERS => 2

/-- Python truthiness of an `Enum` member: members are always truthy
(`Enum` defines no `__bool__`), even when their value is 0. -/
def Numeric.pyTruthy (_ : Numeric) : Bool := true

/-- Enum `LanguagePool` of `captcha.py` (the source spells the Russian
wire code `rn`). -/
inductive LanguagePool where
  | ENGLISH
  | RUSSIAN
deriving DecidableEq, Repr

def LanguagePool.value : LanguagePool → String
  | .ENGLISH => "en"
  | .RUSSIAN => "rn"

/-- Class `Task`: holds the mutable payload dict `self.data`. -/
structure Task where
  data : Dict
deriving DecidableEq, Repr

/-- Body of `Task.__init__(task_type)`: `self.data = {'type': task_type}`. -/
def Task.init (task_type : String) : Task :=
  ⟨[("type", JVal.jstr task_type)]⟩

/-- Body of `Task.build`: copy every entry whose value `is not None`. -/
def Task.build (t : Task) : Dict :=
  t.data.filter (fun p => !(p.2 == JVal.jnull))

/-- Python `self.data.update({...})` used by subclasses. -/
def Task.updateData (t : Task) (entries : List (String × JVal)) : Task :=
  ⟨updateD t.data entries⟩

/-- An unset optional `bool` parameter is Python `None`. -/
def optJBool : Option Bool → JVal
  | some b => JVal.jbool b
  | none => JVal.jnull

/-- An unset optional `int` parameter is Python `None`. -/
def optJInt : Option Int → JVal
  | some n => JVal.jint n
  | none => JVal.jnull

/-- Body of `ImageToTextTask.__init__`.  `base64_encode(image_url)` performs
a network fetch and base64-encodes the bytes; that external step is
abstracted as the resulting string `body_b64`.  Note the source computes
`numeric.value if numeric else None`, where a present enum member is always
truthy (`Numeric.pyTruthy`). -/
def ImageToTextTask (body_b64 : String) (phrase case_ : Option Bool)
    (numeric : Option Numeric) (math : Option Bool)
    (min_length max_length : Option Int) : Task :=
  (Task.init "ImageToTextTask").updateData
    [("body", JVal.jstr body_b64),
     ("phrase", optJBool phrase),
     ("case", optJBool case_),
     ("numeric",
       match numeric with
       | some n => if n.pyTruthy then JVal.jint n.value else JVal.jnull
       | none => JVal.jnull),
     ("math", optJBool math),
     ("minLength", optJInt min_length),
     ("maxLength", optJInt max_length)]

/-- Class `AntiCaptchaService`: immutable credentials set in `__init__`. -/
structure AntiCaptchaService where
  client_key : String
  soft_id : Option Int
deriving DecidableEq, Repr

/-- Body of `AntiCaptchaService.__request` after the transport step: given
the parsed JSON response, raise `CaptchaException` when `errorId > 0`
(the message is `'{} ({}): {}'.format(errorId, errorCode,
errorDescription)`, so a missing `errorCode`/`errorDescription` raises
`KeyError`), strip a non-positive `errorId`, and pass an `errorId`-free
response through unchanged. -/
def requestProcess (response : Dict) : Except PyError Dict :=
  match lookupD response "errorId" with
  | some eid =>
    match jgtZero eid with
    | none => .error .typeError
    | some true =>
      match lookupD response "errorCode" with
      | none => .error (.keyError "errorCode")
      | some ec =>
        match lookupD response "errorDescription" with
        | none => .error (.keyError "errorDescription")
        | some ed =>
          .error (.captchaException
            (pyStr eid ++ " (" ++ pyStr ec ++ "): " ++ pyStr ed))
    | some false => .ok (eraseKey response "errorId")
  | none => .ok response

/-- Method `get_balance`: returns the request payload the method posts and
the processed result (`response['balance']`). -/
def AntiCaptchaService.get_balance (svc : AntiCaptchaService)
    (response : Dict) : Dict × Except PyError JVal :=
  let data : Dict := [("clientKey", JVal.jstr svc.client_key)]
  (data,
    match requestProcess response with
    | .error e => .error e
    | .ok r => getKey r "balance")

/-- Method `get_queue_stats`: the processed response dict is returned
as-is. -/
def AntiCaptchaService.get_queue_stats (svc : AntiCaptchaService)
    (queue_id : Queue) (response : Dict) : Dict × Except PyError Dict :=
  let data : Dict :=
    [("clientKey", JVal.jstr svc.client_key),
     ("queueId", JVal.jint queue_id.value)]
  (data, requestProcess response)

/-- Request entries of `create_task` are either plain values or the nested
`task.build()` dict. -/
inductive ReqVal where
  | v : JVal → ReqVal
  | obj : Dict → ReqVal
deriving DecidableEq, Repr

abbrev ReqDict := List (String × ReqVal)

def lookupR : ReqDict → String → Option ReqVal
  | [], _ => none
  | (k, v) :: rest, key => if k = key then some v else lookupR rest key

def containsKeyR (d : ReqDict) (k : String) : Bool :=
  (lookupR d k).isSome

def setKeyR : ReqDict → String → ReqVal → ReqDict
  | [], key, val => [(key, val)]
  | (k, v) :: rest, key, val =>
    if k = key then (k, val) :: rest else (k, v) :: setKeyR rest key val

/-- Method `create_task`: builds
`{clientKey, languagePool, task: task.build()}`, adds `callbackUrl` and
`softId` only when present, and extracts `response['taskId']`. -/
def AntiCaptchaService.create_task (svc : AntiCaptchaService) (task : Task)
    (lang_pool : LanguagePool) (callback_url : Option String)
    (response : Dict) : ReqDict × Except PyError JVal :=
  let data : ReqDict :=
    [("clientKey", ReqVal.v (JVal.jstr svc.client_key)),
     ("languagePool", ReqVal.v (JVal.jstr lang_pool.value)),
     ("task", ReqVal.obj task.build)]
  let data :=
    match callback_url with
    | some url => setKeyR data "callbackUrl" (ReqVal.v (JVal.jstr url))
    | none => data
  let data :=
    match svc.soft_id with
    | some sid => setKeyR data "softId" (ReqVal.v (JVal.jint sid))
    | none => data
  (data,
    match requestProcess response with
    | .error e => .error e
    | .ok r => getKey r "taskId")

/-- Calling `create_task` without the `lang_pool` argument uses the default
`LanguagePool.ENGLISH` from the Python signature. -/
def AntiCaptchaService.create_task_default (svc : AntiCaptchaService)
    (task : Task) (callback_url : Option String) (response : Dict) :
    ReqDict × Except PyError JVal :=
  svc.create_task task LanguagePool.ENGLISH callback_url response

/-- Method `get_task_result`: overwrites the `status` field with
`response['status'] == 'ready'`. -/
def AntiCaptchaService.get_task_result (svc : AntiCaptchaService)
    (task_id : Int) (response : Dict) : Dict × Except PyError Dict :=
  let data : Dict :=
    [("clientKey", JVal.jstr svc.client_key),
     ("taskId", JVal.jint task_id)]
  (data,
    match requestProcess response with
    | .error e => .error e
    | .ok r =>
      match lookupD r "status" with
      | none => .error (.keyError "status")
      | some st => .ok (setKey r "status" (JVal.jbool (pyEqStr st "ready"))))

/-- Method `report`: returns `response['status'] == 'success'`. -/
def AntiCaptchaService.report (svc : AntiCaptchaService) (task_id : Int)
    (response : Dict) : Dict × Except PyError Bool :=
  let data : Dict :=
    [("clientKey", JVal.jstr svc.client_key),
     ("taskId", JVal.jint task_id)]
  (data,
    match requestProcess response with
    | .error e => .error e
    | .ok r =>
      match lookupD r "status" with
      | none => .error (.keyError "status")
      | some st => .ok (pyEqStr st "success"))

/-- A response that the error protocol does not reject: `errorId` absent,
or an integer that is not positive. -/
def noErrorResp (r : Dict) : Prop :=
  lookupD r "errorId" = none ∨
    ∃ n : Int, lookupD r "errorId" = some (JVal.jint n) ∧ n ≤ 0

/-- State-passing form of the five methods: each returns its result together
with the receiver after the call.  The Python method bodies contain no
assignment to `self`, so the transcription hands the receiver back. -/
def AntiCaptchaService.get_balance_st (svc : AntiCaptchaService)
    (response : Dict) :
    (Dict × Except PyError JVal) × AntiCaptchaService :=
  (svc.get_balance response, svc)

def AntiCaptchaService.get_queue_stats_st (svc : AntiCaptchaService)
    (queue_id : Queue) (response : Dict) :
    (Dict × Except PyError Dict) × AntiCaptchaService :=
  (svc.get_queue_stats queue_id response, svc)

def AntiCaptchaService.create_task_st (svc : AntiCaptchaService)
    (task : Task) (lang_pool : LanguagePool) (callback_url : Option String)
    (response : Dict) :
    (ReqDict × Except PyError JVal) × AntiCaptchaService :=
  (svc.create_task task lang_pool callback_url response, svc)

def AntiCaptchaService.get_task_result_st (svc : AntiCaptchaService)
    (task_id : Int) (response : Dict) :
    (Dict × Except PyError Dict) × AntiCaptchaService :=
  (svc.get_task_result task_id response, svc)

def AntiCaptchaService.report_st (svc : AntiCaptchaService) (task_id : Int)
    (response : Dict) :
    (Dict × Except PyError Bool) × AntiCaptchaService :=
  (svc.report task_id response, svc)

/-! Association-list lemmas about the Python dict operations. -/

theorem lookupD_eraseKey_ne (d : Dict) (k k' : String) (h : k ≠ k') :
    lookupD (eraseKey d k') k = lookupD d k := by
  induction d with
  | nil => rfl
  | cons hd tl ih =>
    obtain ⟨a, v⟩ := hd
    by_cases hk : a = k'
    · subst hk
      have hka : ¬ a = k := fun hak => h hak.symm
      simp [eraseKey, lookupD, hka, ih]
    · simp [eraseKey, lookupD, hk, ih]

theorem lookupD_eraseKey_self (d : Dict) (k : String) :
    lookupD (eraseKey d k) k = none := by
  induction d with
  | nil => rfl
  | cons hd tl ih =>
    by_cases hk : hd.1 = k
    · simpa [eraseKey, hk] using ih
    · simpa [eraseKey, hk, lookupD] using ih

theorem eraseKey_of_lookupD_none (d : Dict) (k : String)
    (h : lookupD d k = none) : eraseKey d k = d := by
  induction d with
  | nil => rfl
  | cons hd tl ih =>
    by_cases hk : hd.1 = k
    · simp [lookupD, hk] at h
    · simp only [lookupD, if_neg hk] at h
      simp [eraseKey, hk, ih h]

theorem lookupD_setKey_self (d : Dict) (k : String) (v : JVal) :
    lookupD (setKey d k v) k = some v := by
  induction d with
  | nil => simp [setKey, lookupD]
  | cons hd tl ih =>
    by_cases hk : hd.1 = k
    · simp [setKey, hk, lookupD]
    · simp [setKey, hk, lookupD, ih]

theorem eraseKey_setKey_self (d : Dict) (k : String) (v : JVal) :
    eraseKey (setKey d k v) k = eraseKey d k := by
  induction d with
  | nil => simp [setKey, eraseKey]
  | cons hd tl ih =>
    by_cases hk : hd.1 = k
    · simp [setKey, hk, eraseKey]
    · simp [setKey, hk, eraseKey, ih]

theorem containsKey_mem_keys (d : Dict) (k : String)
    (h : containsKey d k = true) : k ∈ d.map Prod.fst := by
  induction d with
  | nil => simp [containsKey, lookupD] at h
  | cons hd tl ih =>
    by_cases hk : hd.1 = k
    · simp [← hk]
    · have h' : containsKey tl k = true := by
        simpa [containsKey, lookupD, hk] using h
      simp [ih h']

theorem containsKey_filter_imp (d : Dict) (pred : String × JVal → Bool)
    (k : String) (h : containsKey (d.filter pred) k = true) :
    containsKey d k = true := by
  induction d with
  | nil => simp [containsKey, lookupD] at h
  | cons hd tl ih =>
    rw [List.filter_cons] at h
    by_cases hp : pred hd = true
    · rw [if_pos hp] at h
      by_cases hk : hd.1 = k
      · simp [containsKey, lookupD, hk]
      · have h' : containsKey (tl.filter pred) k = true := by
          simpa [containsKey, lookupD, hk] using h
        simpa [containsKey, lookupD, hk] using ih h'
    · rw [if_neg hp] at h
      by_cases hk : hd.1 = k
      · simp [containsKey, lookupD, hk]
      · simpa [containsKey, lookupD, hk] using ih h

/-- Keys of the payload dict an `ImageToTextTask` constructor builds, in
insertion order, independent of which optional fields are set. -/
theorem imageToTextTask_keys (body : String) (phrase case_ : Option Bool)
    (numeric : Option Numeric) (math : Option Bool)
    (min_length max_length : Option Int) :
    (ImageToTextTask body phrase case_ numeric math min_length
      max_length).data.map Prod.fst =
      ["type", "body", "phrase", "case", "numeric", "math", "minLength",
       "maxLength"] := rfl

set_option maxHeartbeats 2000000 in
/-- C1: for every `Task` (in particular every `ImageToTextTask`) the dict
returned by `build()` has no `None`-valued entry, each optional
`ImageToTextTask` field appears in the output exactly when the caller
supplied it, and every output key is one of the keys the constructor can
set. -/
theorem c1_build_only_explicit_fields (body : String)
    (phrase case_ : Option Bool) (numeric : Option Numeric)
    (math : Option Bool) (min_length max_length : Option Int) :
    (∀ t : Task, ∀ p ∈ t.build, p.2 ≠ JVal.jnull) ∧
    (containsKey (ImageToTextTask body phrase case_ numeric math min_length
        max_length).build "phrase" = phrase.isSome ∧
      containsKey (ImageToTextTask body phrase case_ numeric math min_length
        max_length).build "case" = case_.isSome ∧
      containsKey (ImageToTextTask body phrase case_ numeric math min_length
        max_length).build "numeric" = numeric.isSome ∧
      containsKey (ImageToTextTask body phrase case_ numeric math min_length
        max_length).build "math" = math.isSome ∧
      containsKey (ImageToTextTask body phrase case_ numeric math min_length
        max_length).build "minLength" = min_length.isSome ∧
      containsKey (ImageToTextTask body phrase case_ numeric math min_length
        max_length).build "maxLength" = max_length.isSome) ∧
    (∀ k : String,
      containsKey (ImageToTextTask body phrase case_ numeric math min_length
        max_length).build k = true →
      k ∈ (["type", "body", "phrase", "case", "numeric", "math", "minLength",
        "maxLength"] : List String)) := by
  refine ⟨fun t p hp => ?_, ?_, fun k hk => ?_⟩
  · have h := List.of_mem_filter hp
    simpa using h
  · rcases phrase with _ | p <;> rcases case_ with _ | c <;>
      rcases numeric with _ | n <;> rcases math with _ | m <;>
      rcases min_length with _ | mn <;> rcases max_length with _ | mx <;>
      simp [ImageToTextTask, Task.init, Task.updateData, updateD, setKey,
        Task.build, containsKey, lookupD, optJBool, optJInt,
        Numeric.pyTruthy, List.filter]
  · have h2 := containsKey_mem_keys _ _ (containsKey_filter_imp _ _ _ hk)
    rwa [imageToTextTask_keys] at h2

/-- C4: explicitly supplied falsy values survive `build()`: `phrase=False`,
`case=False`, `math=False`, `min_length=0`, `max_length=0` all appear, and
`numeric=Numeric.NO_REQUIREMENTS` appears as wire value `0` (the enum
member is truthy in Python even though its value is 0). -/
theorem c4_falsy_values_preserved (body : String) :
    lookupD (ImageToTextTask body (some false) (some false)
      (some Numeric.NO_REQUIREMENTS) (some false) (some 0) (some 0)).build
      "phrase" = some (JVal.jbool false) ∧
    lookupD (ImageToTextTask body (some false) (some false)
      (some Numeric.NO_REQUIREMENTS) (some false) (some 0) (some 0)).build
      "case" = some (JVal.jbool false) ∧
    lookupD (ImageToTextTask body (some false) (some false)
      (some Numeric.NO_REQUIREMENTS) (some false) (some 0) (some 0)).build
      "numeric" = some (JVal.jint 0) ∧
    lookupD (ImageToTextTask body (some false) (some false)
      (some Numeric.NO_REQUIREMENTS) (some false) (some 0) (some 0)).build
      "math" = some (JVal.jbool false) ∧
    lookupD (ImageToTextTask body (some false) (some false)
      (some Numeric.NO_REQUIREMENTS) (some false) (some 0) (some 0)).build
      "minLength" = some (JVal.jint 0) ∧
    lookupD (ImageToTextTask body (some false) (some false)
      (some Numeric.NO_REQUIREMENTS) (some false) (some 0) (some 0)).build
      "maxLength" = some (JVal.jint 0) :=
  ⟨rfl, rfl, rfl, rfl, rfl, rfl⟩

/-- C9: `build()` always keeps the `type` discriminant set by
`Task.__init__`: its value is a string, never `None`, so the
`None`-filtering step cannot drop it. -/
theorem c9_type_discriminant_present (s body : String)
    (phrase case_ : Option Bool) (numeric : Option Numeric)
    (math : Option Bool) (min_length max_length : Option Int) :
    lookupD (Task.init s).build "type" = some (JVal.jstr s) ∧
    lookupD (ImageToTextTask body phrase case_ numeric math min_length
      max_length).build "type" = some (JVal.jstr "ImageToTextTask") :=
  ⟨rfl, rfl⟩

/-- A positive integer `errorId` makes `__request` raise
`CaptchaException` with the `'{} ({}): {}'` message. -/
theorem requestProcess_error (r : Dict) (e : Int) (ec ed : JVal)
    (he : lookupD r "errorId" = some (JVal.jint e)) (hpos : 0 < e)
    (hec : lookupD r "errorCode" = some ec)
    (hed : lookupD r "errorDescription" = some ed) :
    requestProcess r = .error (.captchaException
      (pyStr (JVal.jint e) ++ " (" ++ pyStr ec ++ "): " ++ pyStr ed)) := by
  unfold requestProcess
  rw [he]
  simp [jgtZero, hpos, hec, hed]

/-- A response with no positive `errorId` passes through `__request`, with
the `errorId` key stripped when it was present. -/
theorem requestProcess_noError (r : Dict) (h : noErrorResp r) :
    requestProcess r = .ok (eraseKey r "errorId") := by
  rcases h with h | ⟨n, hn, hle⟩
  · rw [eraseKey_of_lookupD_none r _ h]
    unfold requestProcess
    rw [h]
  · unfold requestProcess
    rw [hn]
    simp [jgtZero, Int.not_lt.mpr hle]

/-- C2: when the parsed response carries `errorId > 0` (with the
`errorCode` and `errorDescription` fields the wire error contract
guarantees), every one of the five operations raises `CaptchaException`
with a message containing all three fields, and returns no value. -/
theorem c2_error_raised_all_ops (svc : AntiCaptchaService) (q : Queue)
    (task : Task) (lp : LanguagePool) (cb : Option String) (tid tid' : Int)
    (r : Dict) (e : Int) (ec ed : JVal)
    (he : lookupD r "errorId" = some (JVal.jint e)) (hpos : 0 < e)
    (hec : lookupD r "errorCode" = some ec)
    (hed : lookupD r "errorDescription" = some ed) :
    ∃ msg : String,
      (svc.get_balance r).2 = .error (.captchaException msg) ∧
      (svc.get_queue_stats q r).2 = .error (.captchaException msg) ∧
      (svc.create_task task lp cb r).2 = .error (.captchaException msg) ∧
      (svc.get_task_result tid r).2 = .error (.captchaException msg) ∧
      (svc.report tid' r).2 = .error (.captchaException msg) ∧
      (∃ a b : String, msg = a ++ pyStr (JVal.jint e) ++ b) ∧
      (∃ a b : String, msg = a ++ pyStr ec ++ b) ∧
      (∃ a b : String, msg = a ++ pyStr ed ++ b) := by
  have hreq := requestProcess_error r e ec ed he hpos hec hed
  refine ⟨pyStr (JVal.jint e) ++ " (" ++ pyStr ec ++ "): " ++ pyStr ed,
    ?_, ?_, ?_, ?_, ?_, ?_, ?_, ?_⟩
  · simp [AntiCaptchaService.get_balance, hreq]
  · simp [AntiCaptchaService.get_queue_stats, hreq]
  · simp [AntiCaptchaService.create_task, hreq]
  · simp [AntiCaptchaService.get_task_result, hreq]
  · simp [AntiCaptchaService.report, hreq]
  · exact ⟨"", " (" ++ pyStr ec ++ "): " ++ pyStr ed,
      by simp [String.append_assoc]⟩
  · exact ⟨pyStr (JVal.jint e) ++ " (", "): " ++ pyStr ed,
      by simp [String.append_assoc]⟩
  · exact ⟨pyStr (JVal.jint e) ++ " (" ++ pyStr ec ++ "): ", "",
      by simp [String.append_assoc]⟩

theorem c2_witness :
    ∃ msg : String,
      ((⟨"k", none⟩ : AntiCaptchaService).get_balance
        [("errorId", JVal.jint 1), ("errorCode", JVal.jstr "ERROR_X"),
         ("errorDescription", JVal.jstr "bad")]).2 =
        .error (.captchaException msg) ∧
      ((⟨"k", none⟩ : AntiCaptchaService).get_queue_stats Queue.RECAPTCHA
        [("errorId", JVal.jint 1), ("errorCode", JVal.jstr "ERROR_X"),
         ("errorDescription", JVal.jstr "bad")]).2 =
        .error (.captchaException msg) ∧
      ((⟨"k", none⟩ : AntiCaptchaService).create_task (Task.init "T")
        LanguagePool.ENGLISH none
        [("errorId", JVal.jint 1), ("errorCode", JVal.jstr "ERROR_X"),
         ("errorDescription", JVal.jstr "bad")]).2 =
        .error (.captchaException msg) ∧
      ((⟨"k", none⟩ : AntiCaptchaService).get_task_result 7
        [("errorId", JVal.jint 1), ("errorCode", JVal.jstr "ERROR_X"),
         ("errorDescription", JVal.jstr "bad")]).2 =
        .error (.captchaException msg) ∧
      ((⟨"k", none⟩ : AntiCaptchaService).report 8
        [("errorId", JVal.jint 1), ("errorCode", JVal.jstr "ERROR_X"),
         ("errorDescription", JVal.jstr "bad")]).2 =
        .error (.captchaException msg) ∧
      (∃ a b : String, msg = a ++ pyStr (JVal.jint 1) ++ b) ∧
      (∃ a b : String, msg = a ++ pyStr (JVal.jstr "ERROR_X") ++ b) ∧
      (∃ a b : String, msg = a ++ pyStr (JVal.jstr "bad") ++ b) :=
  c2_error_raised_all_ops ⟨"k", none⟩ Queue.RECAPTCHA (Task.init "T")
    LanguagePool.ENGLISH none 7 8 _ 1 (JVal.jstr "ERROR_X")
    (JVal.jstr "bad") rfl (by decide) rfl rfl

/-- C3: on a response whose `errorId` is zero or absent and whose raw
`status` is the string `s`, `get_task_result` succeeds and the returned
record's readiness flag (stored under the `status` key) is `true` exactly
when `s` is the literal `"ready"`. -/
theorem c3_ready_iff_status_ready (svc : AntiCaptchaService) (tid : Int)
    (r : Dict) (s : String)
    (herr : lookupD r "errorId" = none ∨
      lookupD r "errorId" = some (JVal.jint 0))
    (hst : lookupD r "status" = some (JVal.jstr s)) :
    ∃ out : Dict, (svc.get_task_result tid r).2 = .ok out ∧
      lookupD out "status" = some (JVal.jbool (decide (s = "ready"))) := by
  have herr' : noErrorResp r := by
    rcases herr with h | h
    · exact Or.inl h
    · exact Or.inr ⟨0, h, le_refl 0⟩
  have hreq := requestProcess_noError r herr'
  have hst' : lookupD (eraseKey r "errorId") "status" =
      some (JVal.jstr s) := by
    rw [lookupD_eraseKey_ne _ _ _ (by decide), hst]
  refine ⟨setKey (eraseKey r "errorId") "status"
      (JVal.jbool (pyEqStr (JVal.jstr s) "ready")), ?_, ?_⟩
  · simp [AntiCaptchaService.get_task_result, hreq, hst']
  · rw [lookupD_setKey_self]
    by_cases hs : s = "ready" <;> simp [pyEqStr, hs]

theorem c3_witness :
    ∃ out : Dict,
      ((⟨"k", none⟩ : AntiCaptchaService).get_task_result 1
        [("errorId", JVal.jint 0),
         ("status", JVal.jstr "processing")]).2 = .ok out ∧
      lookupD out "status" = some (JVal.jbool false) :=
  c3_ready_iff_status_ready ⟨"k", none⟩ 1 _ "processing" (Or.inr rfl) rfl

/-- C5: a zero `errorId` is stripped before further processing, an absent
`errorId` leaves the response untouched, and on the synthetic response
`{errorId: 0, balance: 12.5}` the method `get_balance` returns `12.5`. -/
theorem c5_zero_errorId_stripped :
    (∀ r : Dict, lookupD r "errorId" = some (JVal.jint 0) →
      requestProcess r = .ok (eraseKey r "errorId") ∧
      containsKey (eraseKey r "errorId") "errorId" = false) ∧
    (∀ r : Dict, lookupD r "errorId" = none →
      requestProcess r = .ok r) ∧
    (∀ svc : AntiCaptchaService,
      (svc.get_balance
        [("errorId", JVal.jint 0), ("balance", JVal.jrat (25/2))]).2 =
        .ok (JVal.jrat (25/2))) := by
  refine ⟨fun r h => ⟨?_, ?_⟩, fun r h => ?_, fun svc => rfl⟩
  · exact requestProcess_noError r (Or.inr ⟨0, h, le_refl 0⟩)
  · simp [containsKey, lookupD_eraseKey_self]
  · have h2 := requestProcess_noError r (Or.inl h)
    rwa [eraseKey_of_lookupD_none r _ h] at h2

theorem c5_witness :
    requestProcess [("errorId", JVal.jint 0), ("x", JVal.jbool true)] =
      .ok [("x", JVal.jbool true)] ∧
    requestProcess [("y", JVal.jint 3)] = .ok [("y", JVal.jint 3)] :=
  ⟨(c5_zero_errorId_stripped.1
      [("errorId", JVal.jint 0), ("x", JVal.jbool true)] rfl).1,
    c5_zero_errorId_stripped.2.1 [("y", JVal.jint 3)] rfl⟩

/-- C6: on a non-error response, `report` returns
`response['status'] == 'success'`, which is `true` precisely when the
status value is the string literal `"success"`. -/
theorem c6_report_success_iff (svc : AntiCaptchaService) (tid : Int)
    (r : Dict) (v : JVal) (herr : noErrorResp r)
    (hst : lookupD r "status" = some v) :
    (svc.report tid r).2 = .ok (pyEqStr v "success") ∧
    (pyEqStr v "success" = true ↔ v = JVal.jstr "success") := by
  have hreq := requestProcess_noError r herr
  have hst' : lookupD (eraseKey r "errorId") "status" = some v := by
    rw [lookupD_eraseKey_ne _ _ _ (by decide), hst]
  constructor
  · simp [AntiCaptchaService.report, hreq, hst']
  · simp [pyEqStr]

theorem c6_witness :
    ((⟨"k", none⟩ : AntiCaptchaService).report 5
      [("status", JVal.jstr "success")]).2 = .ok true ∧
    ((⟨"k", none⟩ : AntiCaptchaService).report 5
      [("status", JVal.jstr "failed")]).2 = .ok false :=
  ⟨(c6_report_success_iff ⟨"k", none⟩ 5
      [("status", JVal.jstr "success")] (JVal.jstr "success")
      (Or.inl rfl) rfl).1,
    (c6_report_success_iff ⟨"k", none⟩ 5
      [("status", JVal.jstr "failed")] (JVal.jstr "failed")
      (Or.inl rfl) rfl).1⟩

/-- C10: a strictly negative `errorId` is handled exactly like zero: no
exception, the key is stripped, and the operation returns its normal
result. -/
theorem c10_negative_errorId_like_zero (r : Dict) (n : Int) (hn : n < 0)
    (h : lookupD r "errorId" = some (JVal.jint n)) :
    requestProcess r = .ok (eraseKey r "errorId") ∧
    containsKey (eraseKey r "errorId") "errorId" = false ∧
    (∀ svc : AntiCaptchaService, ∀ b : JVal,
      lookupD r "balance" = some b → (svc.get_balance r).2 = .ok b) ∧
    (∀ r' : Dict,
      requestProcess (setKey r' "errorId" (JVal.jint n)) =
        requestProcess (setKey r' "errorId" (JVal.jint 0))) := by
  have hreq := requestProcess_noError r (Or.inr ⟨n, h, le_of_lt hn⟩)
  refine ⟨hreq, by simp [containsKey, lookupD_eraseKey_self], ?_, ?_⟩
  · intro svc b hb
    have hb' : lookupD (eraseKey r "errorId") "balance" = some b := by
      rw [lookupD_eraseKey_ne _ _ _ (by decide), hb]
    simp [AntiCaptchaService.get_balance, hreq, getKey, hb']
  · intro r'
    have h1 := requestProcess_noError (setKey r' "errorId" (JVal.jint n))
      (Or.inr ⟨n, lookupD_setKey_self _ _ _, le_of_lt hn⟩)
    have h2 := requestProcess_noError (setKey r' "errorId" (JVal.jint 0))
      (Or.inr ⟨0, lookupD_setKey_self _ _ _, le_refl 0⟩)
    rw [h1, h2, eraseKey_setKey_self, eraseKey_setKey_self]

theorem c10_witness :
    requestProcess
      [("errorId", JVal.jint (-3)), ("balance", JVal.jrat 5)] =
      .ok [("balance", JVal.jrat 5)] ∧
    ((⟨"k", none⟩ : AntiCaptchaService).get_balance
      [("errorId", JVal.jint (-3)), ("balance", JVal.jrat 5)]).2 =
      .ok (JVal.jrat 5) := by
  have h := c10_negative_errorId_like_zero
    [("errorId", JVal.jint (-3)), ("balance", JVal.jrat 5)] (-3)
    (by decide) rfl
  exact ⟨h.1, h.2.2.1 ⟨"k", none⟩ (JVal.jrat 5) rfl⟩

/-- C7: `create_task` posts exactly
`{clientKey, languagePool, task: task.build()}` plus `callbackUrl` and
`softId` when and only when they were provided; the `lang_pool` parameter
defaults to `LanguagePool.ENGLISH` whose wire code is `"en"`; on a
non-error response the integer `taskId` is returned. -/
theorem c7_create_task_request_shape (svc : AntiCaptchaService)
    (task : Task) (lp : LanguagePool) (cb : Option String) (r : Dict) :
    (svc.create_task task lp cb r).1 =
      ([("clientKey", ReqVal.v (JVal.jstr svc.client_key)),
        ("languagePool", ReqVal.v (JVal.jstr lp.value)),
        ("task", ReqVal.obj task.build)] ++
        (match cb with
         | some u => [("callbackUrl", ReqVal.v (JVal.jstr u))]
         | none => []) ++
        (match svc.soft_id with
         | some s => [("softId", ReqVal.v (JVal.jint s))]
         | none => [])) ∧
    containsKeyR (svc.create_task task lp cb r).1 "callbackUrl" =
      cb.isSome ∧
    containsKeyR (svc.create_task task lp cb r).1 "softId" =
      svc.soft_id.isSome ∧
    LanguagePool.value LanguagePool.ENGLISH = "en" ∧
    svc.create_task_default task cb r =
      svc.create_task task LanguagePool.ENGLISH cb r ∧
    (∀ tid : Int, noErrorResp r →
      lookupD r "taskId" = some (JVal.jint tid) →
      (svc.create_task task lp cb r).2 = .ok (JVal.jint tid)) := by
  obtain ⟨ck, sid⟩ := svc
  refine ⟨?_, ?_, ?_, rfl, rfl, ?_⟩
  · rcases cb with _ | u <;> rcases sid with _ | s <;>
      simp [AntiCaptchaService.create_task, setKeyR]
  · rcases cb with _ | u <;> rcases sid with _ | s <;>
      simp [AntiCaptchaService.create_task, setKeyR, containsKeyR, lookupR]
  · rcases cb with _ | u <;> rcases sid with _ | s <;>
      simp [AntiCaptchaService.create_task, setKeyR, containsKeyR, lookupR]
  · intro tid herr htid
    have hreq := requestProcess_noError r herr
    have htid' : lookupD (eraseKey r "errorId") "taskId" =
        some (JVal.jint tid) := by
      rw [lookupD_eraseKey_ne _ _ _ (by decide), htid]
    simp [AntiCaptchaService.create_task, hreq, getKey, htid']

theorem c7_witness :
    ((⟨"key", some 42⟩ : AntiCaptchaService).create_task (Task.init "T")
        LanguagePool.ENGLISH (some "https://cb")
        [("taskId", JVal.jint 99)]).2 = .ok (JVal.jint 99) ∧
    containsKeyR ((⟨"key", some 42⟩ : AntiCaptchaService).create_task
      (Task.init "T") LanguagePool.ENGLISH (some "https://cb")
      [("taskId", JVal.jint 99)]).1 "softId" = true :=
  ⟨(c7_create_task_request_shape ⟨"key", some 42⟩ (Task.init "T")
      LanguagePool.ENGLISH (some "https://cb")
      [("taskId", JVal.jint 99)]).2.2.2.2.2 99 (Or.inl rfl) rfl,
    (c7_create_task_request_shape ⟨"key", some 42⟩ (Task.init "T")
      LanguagePool.ENGLISH (some "https://cb")
      [("taskId", JVal.jint 99)]).2.2.1⟩

/-- C8: none of the five service operations mutates the client: in the
state-passing transcription every call hands back a receiver whose
`client_key` and `soft_id` are those set by `__init__`. -/
theorem c8_no_state_mutation (svc : AntiCaptchaService) (q : Queue)
    (task : Task) (lp : LanguagePool) (cb : Option String)
    (tid tid' : Int) (r1 r2 r3 r4 r5 : Dict) :
    ((svc.get_balance_st r1).2.client_key = svc.client_key ∧
      (svc.get_balance_st r1).2.soft_id = svc.soft_id) ∧
    ((svc.get_queue_stats_st q r2).2.client_key = svc.client_key ∧
      (svc.get_queue_stats_st q r2).2.soft_id = svc.soft_id) ∧
    ((svc.create_task_st task lp cb r3).2.client_key = svc.client_key ∧
      (svc.create_task_st task lp cb r3).2.soft_id = svc.soft_id) ∧
    ((svc.get_task_result_st tid r4).2.client_key = svc.client_key ∧
      (svc.get_task_result_st tid r4).2.soft_id = svc.soft_id) ∧
    ((svc.report_st tid' r5).2.client_key = svc.client_key ∧
      (svc.report_st tid' r5).2.soft_id = svc.soft_id) :=
  ⟨⟨rfl, rfl⟩, ⟨rfl, rfl⟩, ⟨rfl, rfl⟩, ⟨rfl, rfl⟩, ⟨rfl, rfl⟩⟩

end Captcha
